import Mathlib

/-!
Shallow embedding of the camera-connection registry of `videocapture_mcp.py`.

The registry is the module-level dict `active_captures : Dict[str, cv2.VideoCapture]`.
We model a `cv2.VideoCapture` object by a numeric handle id allocated freshly at each
`cv2.VideoCapture(device_index)` construction, the dict by an association list that keeps
Python's dict semantics (insertion order, in-place overwrite of an existing key), and the
external OpenCV layer (device open success, frame reads, property gets/sets) by an
environment of oracle functions.  Ghost fields `released` (the sequence of `release()`
calls issued to handles) and `reads` (number of `cap.read()` attempts) record the
effects on the external device layer.

Exceptions raised by the Python code are modelled by `Except`; since a raised exception
does not roll back mutations already performed, every operation returns the final state
next to the `Except` result.
-/

namespace VCap

/-- A raw frame as produced by `cap.read()`: a list of pixel rows. -/
def Frame : Type := List (List Nat)

instance : DecidableEq Frame := by
  unfold Frame
  infer_instance

/-- Models `cv2.flip(frame, 1)` (flip code 1 = horizontal mirror): each row reversed. -/
def cvFlip (f : Frame) : Frame := f.map List.reverse

/-- The `fastmcp` `Image(data=..., format=...)` object returned by capture operations. -/
structure Image where
  data : List Nat
  format : String
  deriving DecidableEq, Repr

/-- The error taxonomy.  In the Python source all four are distinct `raise` sites:
`ValueError` at open failure, at unknown connection id and at unknown property name,
`RuntimeError` at a failed frame read. -/
inductive Err where
  | deviceOpenError : Nat → Err
  | unknownConnectionError : String → Err
  | captureFailedError : String → Err
  | unknownPropertyError : String → Err
  deriving DecidableEq, Repr

/-- The external OpenCV layer, as oracle functions.  `openOk i` is
`cv2.VideoCapture(i).isOpened()`; `readFrame h` is the outcome of `cap.read()` on the
capture object with handle id `h` (`none` when `ret` is false); `encodePng` is
`cv2.imencode` followed by `tobytes`; `setProp h p v` is `cap.set(p, v)`'s boolean
acceptance; `getProp h p` is `cap.get(p)` (property values modelled as integers). -/
structure Env where
  openOk : Nat → Bool
  readFrame : Nat → Option Frame
  encodePng : Frame → List Nat
  setProp : Nat → Nat → Int → Bool
  getProp : Nat → Nat → Int

/-- The process state: the `active_captures` dict (keys in insertion order, each mapped
to the handle id of its capture object), the next fresh handle id, and the ghost trace
of released handle ids and of read attempts. -/
structure RegState where
  registry : List (String × Nat)
  nextHandle : Nat
  released : List Nat
  reads : Nat
  deriving DecidableEq, Repr

/-- Python `key in d` / `d[key]` on the modelled dict: first entry with the key. -/
def lookup (reg : List (String × Nat)) (k : String) : Option Nat :=
  (reg.find? (fun p => p.1 == k)).map (·.2)

/-- Python `d[key] = v`: overwrite in place when the key is present (the key keeps its
position, as in a Python dict), append otherwise. -/
def dictInsert (reg : List (String × Nat)) (k : String) (v : Nat) : List (String × Nat) :=
  if reg.any (fun p => p.1 == k) then
    reg.map (fun p => if p.1 == k then (k, v) else p)
  else
    reg ++ [(k, v)]

/-- Python `del d[key]`. -/
def dictErase (reg : List (String × Nat)) (k : String) : List (String × Nat) :=
  reg.filter (fun p => !(p.1 == k))

/-- Models Python `str.startswith`. -/
def startswith (s pre : String) : Bool := pre.data.isPrefixOf s.data

/-- The id convention scanned for by `_quick_capture`: `camera_<device_index>_`. -/
def cameraTag (device_index : Nat) : String :=
  "camera_" ++ toString device_index ++ "_"

/-- The generated connection id
`camera_<device_index>_<datetime.now().strftime of second precision>`; the timestamp
string is a parameter. -/
def genName (device_index : Nat) (ts : String) : String :=
  cameraTag device_index ++ ts

/-- `_open_camera(device_index, name)`: default the name to the generated id, construct
`cv2.VideoCapture(device_index)` (a fresh handle), raise `ValueError` if it is not
opened, otherwise register the handle under the name and return the name. -/
def open_camera (env : Env) (s : RegState) (device_index : Nat) (name : Option String)
    (ts : String) : Except Err String × RegState :=
  let nm := name.getD (genName device_index ts)
  if env.openOk device_index then
    (Except.ok nm,
      { s with registry := dictInsert s.registry nm s.nextHandle,
               nextHandle := s.nextHandle + 1 })
  else
    (Except.error (Err.deviceOpenError device_index), s)

/-- `_capture_frame(connection_id, flip)`: unknown id raises; otherwise one
`cap.read()` attempt (counted in `reads`), raising on a failed read, else optional
horizontal flip, PNG encoding, and an `Image` with format tag `"png"`. -/
def capture_frame (env : Env) (s : RegState) (connection_id : String) (flip : Bool) :
    Except Err Image × RegState :=
  match lookup s.registry connection_id with
  | none => (Except.error (Err.unknownConnectionError connection_id), s)
  | some cap =>
    let s1 := { s with reads := s.reads + 1 }
    match env.readFrame cap with
    | none => (Except.error (Err.captureFailedError connection_id), s1)
    | some frame =>
      let frame1 := if flip then cvFlip frame else frame
      (Except.ok { data := env.encodePng frame1, format := "png" }, s1)

/-- The numeric values of the OpenCV property constants used by the source. -/
def CAP_PROP_FRAME_WIDTH : Nat := 3
def CAP_PROP_FRAME_HEIGHT : Nat := 4
def CAP_PROP_FPS : Nat := 5
def CAP_PROP_FRAME_COUNT : Nat := 7
def CAP_PROP_FORMAT : Nat := 8
def CAP_PROP_BRIGHTNESS : Nat := 10
def CAP_PROP_CONTRAST : Nat := 11
def CAP_PROP_SATURATION : Nat := 12
def CAP_PROP_AUTO_EXPOSURE : Nat := 21
def CAP_PROP_AUTOFOCUS : Nat := 39

/-- `get_video_properties(connection_id)`: unknown id raises; otherwise each property
is read independently from the device and returned in a dict. -/
def get_video_properties (env : Env) (s : RegState) (connection_id : String) :
    Except Err (List (String × Int)) × RegState :=
  match lookup s.registry connection_id with
  | none => (Except.error (Err.unknownConnectionError connection_id), s)
  | some cap =>
    (Except.ok
      [("width", env.getProp cap CAP_PROP_FRAME_WIDTH),
       ("height", env.getProp cap CAP_PROP_FRAME_HEIGHT),
       ("fps", env.getProp cap CAP_PROP_FPS),
       ("frame_count", env.getProp cap CAP_PROP_FRAME_COUNT),
       ("brightness", env.getProp cap CAP_PROP_BRIGHTNESS),
       ("contrast", env.getProp cap CAP_PROP_CONTRAST),
       ("saturation", env.getProp cap CAP_PROP_SATURATION),
       ("format", env.getProp cap CAP_PROP_FORMAT)], s)

/-- The `property_map` dict of `set_video_property`. -/
def property_map : List (String × Nat) :=
  [("width", CAP_PROP_FRAME_WIDTH),
   ("height", CAP_PROP_FRAME_HEIGHT),
   ("fps", CAP_PROP_FPS),
   ("brightness", CAP_PROP_BRIGHTNESS),
   ("contrast", CAP_PROP_CONTRAST),
   ("saturation", CAP_PROP_SATURATION),
   ("auto_exposure", CAP_PROP_AUTO_EXPOSURE),
   ("auto_focus", CAP_PROP_AUTOFOCUS)]

/-- `set_video_property(connection_id, property_name, value)`: the connection check
comes first, then the allow-list check (the same first-match dict semantics as the
registry), then the forwarded `cap.set` whose boolean acceptance is returned
unmodified.  The `float` value is modelled as an integer. -/
def set_video_property (env : Env) (s : RegState) (connection_id : String)
    (property_name : String) (value : Int) : Except Err Bool × RegState :=
  match lookup s.registry connection_id with
  | none => (Except.error (Err.unknownConnectionError connection_id), s)
  | some cap =>
    match lookup property_map property_name with
    | none => (Except.error (Err.unknownPropertyError property_name), s)
    | some code => (Except.ok (env.setProp cap code value), s)

/-- `_close_connection(connection_id)`: unknown id raises; otherwise
`active_captures[connection_id].release()` then `del active_captures[connection_id]`,
returning `True`. -/
def close_connection (s : RegState) (connection_id : String) :
    Except Err Bool × RegState :=
  match lookup s.registry connection_id with
  | none => (Except.error (Err.unknownConnectionError connection_id), s)
  | some cap =>
    (Except.ok true,
      { s with registry := dictErase s.registry connection_id,
               released := s.released ++ [cap] })

/-- `list_active_connections()`: `list(active_captures.keys())`. -/
def list_active_connections (s : RegState) : List String :=
  s.registry.map Prod.fst

/-- `_quick_capture(device_index, flip)`: linear scan for a key with the
`camera_<device_index>_` prefix; reuse it if found, otherwise open a temporary
connection, capture, and close it in a `finally` block (so also when the capture
raised; an exception raised by the close itself would replace the pending one). -/
def quick_capture (env : Env) (s : RegState) (device_index : Nat) (flip : Bool)
    (ts : String) : Except Err Image × RegState :=
  match s.registry.find? (fun p => startswith p.1 (cameraTag device_index)) with
  | some p => capture_frame env s p.1 flip
  | none =>
    match open_camera env s device_index none ts with
    | (Except.error e, s1) => (Except.error e, s1)
    | (Except.ok key, s1) =>
      let r := capture_frame env s1 key flip
      let rc := close_connection r.2 key
      match rc.1 with
      | Except.error e => (Except.error e, rc.2)
      | Except.ok _ => (r.1, rc.2)

/-- The `finally` block of `app_lifespan`: `cap.release()` for every entry of
`active_captures` in iteration order, then `active_captures.clear()`. -/
def app_lifespan_cleanup (s : RegState) : RegState :=
  { s with released := s.released ++ s.registry.map (·.2), registry := [] }

/-- The lifespan hook attached to the server.  The source constructs
`mcp = FastMCP("VideoCapture")` with no `lifespan` argument — the constructor call
passing `lifespan=app_lifespan` is commented out — so no hook is attached. -/
def mcp_lifespan : Option (RegState → RegState) := none

/-- What happens to the registry state at process shutdown: the attached lifespan
hook runs if there is one, otherwise nothing does. -/
def shutdown (s : RegState) : RegState :=
  match mcp_lifespan with
  | some f => f s
  | none => s

/-- `True` when some registry key carries the `camera_<d>_` prefix. -/
def hasDevKey (s : RegState) (d : Nat) : Bool :=
  s.registry.any (fun p => startswith p.1 (cameraTag d))

/-! ### Lemmas about the modelled dict -/

theorem isPrefixOf_append_self (l t : List Char) : l.isPrefixOf (l ++ t) = true := by
  induction l with
  | nil => simp [List.isPrefixOf]
  | cons c cs ih => simp [List.isPrefixOf, ih]

/-- A generated name carries the device's prefix. -/
theorem startswith_genName (d : Nat) (ts : String) :
    startswith (genName d ts) (cameraTag d) = true := by
  unfold startswith genName
  rw [String.data_append]
  exact isPrefixOf_append_self _ _

theorem lookup_nil (x : String) : lookup [] x = none := rfl

theorem lookup_cons (p : String × Nat) (reg : List (String × Nat)) (x : String) :
    lookup (p :: reg) x = if p.1 = x then some p.2 else lookup reg x := by
  unfold lookup
  rw [List.find?_cons]
  by_cases h : p.1 = x
  · rw [if_pos h, beq_iff_eq.mpr h]
    rfl
  · rw [if_neg h, beq_eq_false_iff_ne.mpr h]

theorem lookup_mapOv (l : List (String × Nat)) (k : String) (v : Nat) (x : String) :
    lookup (l.map (fun p => if p.1 == k then (k, v) else p)) x =
      if x = k then (if l.any (fun p => p.1 == k) then some v else none)
      else lookup l x := by
  induction l with
  | nil => by_cases hx : x = k <;> simp [lookup_nil, hx]
  | cons p l ih =>
    rw [List.map_cons]
    by_cases hp : p.1 = k
    · have hp' : (p.1 == k) = true := beq_iff_eq.mpr hp
      rw [if_pos hp', lookup_cons, lookup_cons]
      by_cases hx : x = k
      · simp [hx, hp, List.any_cons, hp']
      · have h1 : ¬ (k = x) := fun e => hx e.symm
        have h2 : ¬ (p.1 = x) := hp ▸ h1
        simp only [if_neg h1, if_neg h2, if_neg hx, ih]
    · have hp' : (p.1 == k) = false := beq_eq_false_iff_ne.mpr hp
      rw [if_neg (by simp [hp']), lookup_cons, lookup_cons]
      by_cases hq : p.1 = x
      · have hx : ¬ (x = k) := fun e => hp (hq.trans e)
        simp [hq, hx]
      · simp only [if_neg hq, ih, List.any_cons, hp', Bool.false_or]

theorem lookup_eq_none_of_any_false (reg : List (String × Nat)) (k : String)
    (h : reg.any (fun p => p.1 == k) = false) : lookup reg k = none := by
  unfold lookup
  rw [Option.map_eq_none']
  refine List.find?_eq_none.mpr ?_
  intro p hp hpk
  rw [List.any_eq_false] at h
  exact h p hp hpk

/-- Python dict write: the written key maps to the new value, every other key is
untouched — also when the key was already present (last writer wins). -/
theorem lookup_dictInsert (reg : List (String × Nat)) (k : String) (v : Nat) (x : String) :
    lookup (dictInsert reg k v) x = if x = k then some v else lookup reg x := by
  unfold dictInsert
  by_cases h : reg.any (fun p => p.1 == k) = true
  · rw [if_pos h, lookup_mapOv, h]
    simp
  · rw [Bool.not_eq_true] at h
    rw [if_neg (by rw [h]; exact Bool.false_ne_true)]
    induction reg with
    | nil =>
      by_cases hx : x = k
      · simp [hx, lookup_cons, lookup_nil]
      · have hkx : ¬ (k = x) := fun e => hx e.symm
        simp [lookup_cons, lookup_nil, hx, hkx]
    | cons p l ih =>
      have hp' : (p.1 == k) = false := by
        by_contra hc
        rw [Bool.not_eq_false] at hc
        simp [List.any_cons, hc] at h
      simp only [List.any_cons, hp', Bool.false_or] at h
      rw [List.cons_append, lookup_cons, lookup_cons, ih h]
      by_cases hq : p.1 = x
      · have hxk : ¬ (x = k) := by
          intro e
          rw [e] at hq
          exact (beq_eq_false_iff_ne.mp hp') hq
        simp [hq, hxk]
      · simp [hq]

theorem mem_keys_iff_lookup (reg : List (String × Nat)) (x : String) :
    x ∈ reg.map Prod.fst ↔ (lookup reg x).isSome = true := by
  induction reg with
  | nil => simp [lookup_nil]
  | cons p l ih =>
    rw [List.map_cons, List.mem_cons, lookup_cons]
    by_cases hp : p.1 = x
    · simp [hp]
    · have hxp : ¬ (x = p.1) := fun e => hp e.symm
      simp [if_neg hp, ih, hxp]

/-- Python dict write, key level: the written key joins the key set and nothing else
changes. -/
theorem mem_keys_dictInsert (reg : List (String × Nat)) (k : String) (v : Nat) (x : String) :
    x ∈ (dictInsert reg k v).map Prod.fst ↔ x ∈ reg.map Prod.fst ∨ x = k := by
  rw [mem_keys_iff_lookup, mem_keys_iff_lookup, lookup_dictInsert]
  by_cases hx : x = k
  · simp [hx]
  · simp [hx]

theorem lookup_dictErase_self (reg : List (String × Nat)) (k : String) :
    lookup (dictErase reg k) k = none := by
  unfold lookup dictErase
  rw [Option.map_eq_none']
  refine List.find?_eq_none.mpr ?_
  intro p hp hpk
  have := List.of_mem_filter hp
  rw [hpk] at this
  simp at this

theorem dictErase_append_absent (reg : List (String × Nat)) (k : String) (v : Nat)
    (h : reg.any (fun p => p.1 == k) = false) :
    dictErase (reg ++ [(k, v)]) k = reg := by
  unfold dictErase
  rw [List.filter_append]
  rw [List.any_eq_false] at h
  have h1 : reg.filter (fun p => !(p.1 == k)) = reg := by
    refine List.filter_eq_self.mpr ?_
    intro p hp
    have := h p hp
    simp only [Bool.not_eq_true] at this
    rw [this]
    rfl
  have h2 : ([((k : String), v)].filter (fun p => !(p.1 == k))) = [] := by
    simp [List.filter]
  rw [h1, h2, List.append_nil]

theorem lookup_append_absent (reg : List (String × Nat)) (k : String) (v : Nat)
    (h : reg.any (fun p => p.1 == k) = false) :
    lookup (reg ++ [(k, v)]) k = some v := by
  induction reg with
  | nil => simp [lookup_cons, lookup_nil]
  | cons p l ih =>
    have hp' : (p.1 == k) = false := by
      by_contra hc
      rw [Bool.not_eq_false] at hc
      simp [List.any_cons, hc] at h
    simp only [List.any_cons, hp', Bool.false_or] at h
    rw [List.cons_append, lookup_cons, if_neg (beq_eq_false_iff_ne.mp hp'), ih h]

/-- `_capture_frame` never touches the registry, the release trace or the handle
counter: it only reads a frame. -/
theorem capture_frame_state (env : Env) (s : RegState) (cid : String) (b : Bool) :
    (capture_frame env s cid b).2.registry = s.registry ∧
    (capture_frame env s cid b).2.released = s.released ∧
    (capture_frame env s cid b).2.nextHandle = s.nextHandle := by
  unfold capture_frame
  cases h : lookup s.registry cid with
  | none => exact ⟨rfl, rfl, rfl⟩
  | some cap =>
    dsimp only
    cases hr : env.readFrame cap with
    | none => exact ⟨rfl, rfl, rfl⟩
    | some fr => exact ⟨rfl, rfl, rfl⟩

/-! ### Concrete fixtures used by the witnesses -/

/-- A device layer where every open succeeds, every read yields the same 2x2 frame,
every property set is accepted and every property reads as 0. -/
def envW : Env :=
  { openOk := fun _ => true
  , readFrame := fun _ => some [[3, 1], [4, 1]]
  , encodePng := fun fr => fr.flatten
  , setProp := fun _ _ _ => true
  , getProp := fun _ _ => 0 }

/-- A device layer where no device can be opened. -/
def envF : Env :=
  { openOk := fun _ => false
  , readFrame := fun _ => none
  , encodePng := fun fr => fr.flatten
  , setProp := fun _ _ _ => false
  , getProp := fun _ _ => 0 }

/-- A registry holding one explicitly named connection. -/
def sW : RegState :=
  { registry := [("cam1", 0)], nextHandle := 1, released := [], reads := 0 }

/-- The empty registry. -/
def sE : RegState :=
  { registry := [], nextHandle := 0, released := [], reads := 0 }

/-- A registry holding one connection under a generated-style name for device 2. -/
def sQ : RegState :=
  { registry := [("camera_2_20240101000000", 5)], nextHandle := 6, released := [], reads := 0 }

/-! ### The claims -/

/-- C3: for a connection id absent from the registry, `capture_frame`,
`get_video_properties`, `set_video_property` and `close_connection` all fail with
`UnknownConnectionError` and return the state untouched — no handle state is read or
modified (no read attempt, no release, no registry change). -/
theorem unknown_connection_rejected (env : Env) (s : RegState) (cid : String)
    (b : Bool) (pname : String) (v : Int) (h : lookup s.registry cid = none) :
    capture_frame env s cid b = (Except.error (Err.unknownConnectionError cid), s) ∧
    get_video_properties env s cid = (Except.error (Err.unknownConnectionError cid), s) ∧
    set_video_property env s cid pname v =
      (Except.error (Err.unknownConnectionError cid), s) ∧
    close_connection s cid = (Except.error (Err.unknownConnectionError cid), s) := by
  unfold capture_frame get_video_properties set_video_property close_connection
  rw [h]
  exact ⟨rfl, rfl, rfl, rfl⟩

theorem unknown_connection_rejected_witness :
    lookup sW.registry "nope" = none ∧
    (capture_frame envW sW "nope" false =
       (Except.error (Err.unknownConnectionError "nope"), sW) ∧
     get_video_properties envW sW "nope" =
       (Except.error (Err.unknownConnectionError "nope"), sW) ∧
     set_video_property envW sW "nope" "width" 0 =
       (Except.error (Err.unknownConnectionError "nope"), sW) ∧
     close_connection sW "nope" =
       (Except.error (Err.unknownConnectionError "nope"), sW)) :=
  ⟨by decide, unknown_connection_rejected envW sW "nope" false "width" 0 (by decide)⟩

/-- C7: when the device layer reports the open failed, `open_camera` fails with
`DeviceOpenError` and the whole state — in particular the registry — is unchanged:
nothing is inserted and no resource is registered. -/
theorem open_camera_failure_unchanged (env : Env) (s : RegState) (d : Nat)
    (oname : Option String) (ts : String) (h : env.openOk d = false) :
    open_camera env s d oname ts = (Except.error (Err.deviceOpenError d), s) := by
  unfold open_camera
  simp [h]

theorem open_camera_failure_unchanged_witness :
    envF.openOk 0 = false ∧
    open_camera envF sW 0 none "20240101000000" =
      (Except.error (Err.deviceOpenError 0), sW) :=
  ⟨by decide, open_camera_failure_unchanged envF sW 0 none "20240101000000" (by decide)⟩

/-- C10: when the connection id is absent and the property name is outside the
allow-list at the same time, `set_video_property` fails with the connection error, not
the property error: the `connection_id not in active_captures` check runs first. -/
theorem set_video_property_connection_checked_first (env : Env) (s : RegState)
    (cid : String) (pname : String) (v : Int)
    (h1 : lookup s.registry cid = none) (_h2 : lookup property_map pname = none) :
    set_video_property env s cid pname v =
      (Except.error (Err.unknownConnectionError cid), s) := by
  unfold set_video_property
  rw [h1]

theorem set_video_property_connection_checked_first_witness :
    lookup sW.registry "ghost" = none ∧
    lookup property_map "zoom" = none ∧
    set_video_property envW sW "ghost" "zoom" 3 =
      (Except.error (Err.unknownConnectionError "ghost"), sW) :=
  ⟨by decide, by decide,
    set_video_property_connection_checked_first envW sW "ghost" "zoom" 3
      (by decide) (by decide)⟩

/-- C4: closing a present connection releases its handle (appended exactly once to the
release trace), removes the entry, and returns `True`; immediately repeating the same
close fails with `UnknownConnectionError` and changes nothing further, and after the
successful close the id no longer resolves in the registry. -/
theorem close_connection_then_close_again (s : RegState) (cid : String) (h0 : Nat)
    (h : lookup s.registry cid = some h0) :
    (close_connection s cid).1 = Except.ok true ∧
    lookup (close_connection s cid).2.registry cid = none ∧
    (close_connection s cid).2.released = s.released ++ [h0] ∧
    close_connection (close_connection s cid).2 cid =
      (Except.error (Err.unknownConnectionError cid), (close_connection s cid).2) := by
  have h1 : close_connection s cid =
      (Except.ok true,
       { s with registry := dictErase s.registry cid,
                released := s.released ++ [h0] }) := by
    unfold close_connection
    rw [h]
  rw [h1]
  refine ⟨rfl, ?_, rfl, ?_⟩
  · exact lookup_dictErase_self _ _
  · unfold close_connection
    rw [show lookup (dictErase s.registry cid) cid = none from lookup_dictErase_self _ _]

theorem close_connection_then_close_again_witness :
    lookup sW.registry "cam1" = some 0 ∧
    ((close_connection sW "cam1").1 = Except.ok true ∧
     lookup (close_connection sW "cam1").2.registry "cam1" = none ∧
     (close_connection sW "cam1").2.released = sW.released ++ [0] ∧
     close_connection (close_connection sW "cam1").2 "cam1" =
       (Except.error (Err.unknownConnectionError "cam1"), (close_connection sW "cam1").2)) :=
  ⟨by decide, close_connection_then_close_again sW "cam1" 0 (by decide)⟩

/-- C9: on a present connection, `capture_frame` performs exactly one read attempt
(the read counter advances by one in every branch — no internal retry) and leaves the
registry unchanged; a read that yields no frame fails with `CaptureFailedError`, and a
successful read yields the PNG encoding of the frame — mirrored horizontally first
when `flip` is true — with the `"png"` format tag. -/
theorem capture_frame_one_read (env : Env) (s : RegState) (cid : String) (cap : Nat)
    (b : Bool) (fr : Frame) (h : lookup s.registry cid = some cap) :
    (capture_frame env s cid b).2.reads = s.reads + 1 ∧
    (capture_frame env s cid b).2.registry = s.registry ∧
    (env.readFrame cap = none →
      (capture_frame env s cid b).1 = Except.error (Err.captureFailedError cid)) ∧
    (env.readFrame cap = some fr →
      (capture_frame env s cid b).1 =
        Except.ok { data := env.encodePng (if b then cvFlip fr else fr),
                    format := "png" }) := by
  unfold capture_frame
  rw [h]
  dsimp only
  refine ⟨?_, ?_, ?_, ?_⟩
  · cases hr : env.readFrame cap <;> rfl
  · cases hr : env.readFrame cap <;> rfl
  · intro hr
    rw [hr]
  · intro hr
    rw [hr]

theorem capture_frame_one_read_witness :
    lookup sW.registry "cam1" = some 0 ∧
    ((capture_frame envW sW "cam1" true).2.reads = sW.reads + 1 ∧
     (capture_frame envW sW "cam1" true).2.registry = sW.registry ∧
     (envW.readFrame 0 = none →
       (capture_frame envW sW "cam1" true).1 =
         Except.error (Err.captureFailedError "cam1")) ∧
     (envW.readFrame 0 = some [[3, 1], [4, 1]] →
       (capture_frame envW sW "cam1" true).1 =
         Except.ok { data := envW.encodePng (if true then cvFlip [[3, 1], [4, 1]]
                                             else [[3, 1], [4, 1]]),
                     format := "png" })) :=
  ⟨by decide, capture_frame_one_read envW sW "cam1" 0 true [[3, 1], [4, 1]] (by decide)⟩

/-- C8: on a present connection, `set_video_property` recognises exactly the property
names width, height, fps, brightness, contrast, saturation, auto_exposure, auto_focus;
any other name fails with `UnknownPropertyError`, and an allow-listed name forwards
the set request to the device and returns the device's boolean acceptance unmodified
(state untouched in all cases). -/
theorem set_video_property_allowlist (env : Env) (s : RegState) (cid : String)
    (cap : Nat) (pname : String) (v : Int) (code : Nat)
    (h : lookup s.registry cid = some cap) :
    ((lookup property_map pname).isSome = true ↔
      pname ∈ ["width", "height", "fps", "brightness", "contrast", "saturation",
               "auto_exposure", "auto_focus"]) ∧
    (lookup property_map pname = none →
      set_video_property env s cid pname v =
        (Except.error (Err.unknownPropertyError pname), s)) ∧
    (lookup property_map pname = some code →
      set_video_property env s cid pname v = (Except.ok (env.setProp cap code v), s)) := by
  refine ⟨?_, ?_, ?_⟩
  · rw [← mem_keys_iff_lookup]
    exact Iff.rfl
  · intro hp
    unfold set_video_property
    rw [h]
    dsimp only
    rw [hp]
  · intro hp
    unfold set_video_property
    rw [h]
    dsimp only
    rw [hp]

theorem set_video_property_allowlist_witness :
    lookup sW.registry "cam1" = some 0 ∧
    (((lookup property_map "auto_focus").isSome = true ↔
       "auto_focus" ∈ ["width", "height", "fps", "brightness", "contrast", "saturation",
                       "auto_exposure", "auto_focus"]) ∧
     (lookup property_map "auto_focus" = none →
       set_video_property envW sW "cam1" "auto_focus" 1 =
         (Except.error (Err.unknownPropertyError "auto_focus"), sW)) ∧
     (lookup property_map "auto_focus" = some 39 →
       set_video_property envW sW "cam1" "auto_focus" 1 =
         (Except.ok (envW.setProp 0 39 1), sW))) :=
  ⟨by decide, set_video_property_allowlist envW sW "cam1" 0 "auto_focus" 1 39 (by decide)⟩

/-- C6: a successful `open_camera` returns the effective name (the generated
`camera_<device_index>_<timestamp>` id when the name is omitted), maps that name to the
freshly created handle in the registry — overwriting any prior entry under the name,
last writer wins — and the key set of `list_active_connections` afterwards is the old
key set plus exactly that id. -/
theorem open_camera_success_registers (env : Env) (s : RegState) (d : Nat)
    (oname : Option String) (ts : String) (x : String) (h : env.openOk d = true) :
    (open_camera env s d oname ts).1 = Except.ok (oname.getD (genName d ts)) ∧
    lookup (open_camera env s d oname ts).2.registry (oname.getD (genName d ts)) =
      some s.nextHandle ∧
    (oname = none → (open_camera env s d oname ts).1 = Except.ok (genName d ts)) ∧
    (x ∈ list_active_connections (open_camera env s d oname ts).2 ↔
      (x ∈ list_active_connections s ∨ x = oname.getD (genName d ts))) := by
  have h1 : open_camera env s d oname ts =
      (Except.ok (oname.getD (genName d ts)),
       { s with registry := dictInsert s.registry (oname.getD (genName d ts)) s.nextHandle,
                nextHandle := s.nextHandle + 1 }) := by
    unfold open_camera
    dsimp only
    rw [if_pos h]
  rw [h1]
  refine ⟨rfl, ?_, ?_, ?_⟩
  · rw [lookup_dictInsert, if_pos rfl]
  · intro he
    rw [he]
    rfl
  · unfold list_active_connections
    exact mem_keys_dictInsert _ _ _ _

theorem open_camera_success_registers_witness :
    envW.openOk 0 = true ∧
    ((open_camera envW sW 0 none "20240101000000").1 =
       Except.ok ((none : Option String).getD (genName 0 "20240101000000")) ∧
     lookup (open_camera envW sW 0 none "20240101000000").2.registry
         ((none : Option String).getD (genName 0 "20240101000000")) = some sW.nextHandle ∧
     ((none : Option String) = none →
       (open_camera envW sW 0 none "20240101000000").1 =
         Except.ok (genName 0 "20240101000000")) ∧
     ("camera_0_20240101000000" ∈
        list_active_connections (open_camera envW sW 0 none "20240101000000").2 ↔
       ("camera_0_20240101000000" ∈ list_active_connections sW ∨
        "camera_0_20240101000000" = (none : Option String).getD (genName 0 "20240101000000")))) :=
  ⟨by decide,
    open_camera_success_registers envW sW 0 none "20240101000000" "camera_0_20240101000000"
      (by decide)⟩

/-- C5: when the linear scan of `_quick_capture` finds a registry key with the
`camera_<device_index>_` prefix, the call reuses that connection: no new handle is
opened (handle counter unchanged), nothing is closed (release trace unchanged), the
registry is unchanged, and the found connection id is still present with its entry
intact afterwards. -/
theorem quick_capture_reuses_existing (env : Env) (s : RegState) (d : Nat) (b : Bool)
    (ts : String) (p : String × Nat)
    (h : s.registry.find? (fun q => startswith q.1 (cameraTag d)) = some p) :
    (quick_capture env s d b ts).2.registry = s.registry ∧
    (quick_capture env s d b ts).2.released = s.released ∧
    (quick_capture env s d b ts).2.nextHandle = s.nextHandle ∧
    p.1 ∈ list_active_connections (quick_capture env s d b ts).2 ∧
    lookup (quick_capture env s d b ts).2.registry p.1 = lookup s.registry p.1 := by
  unfold quick_capture
  rw [h]
  dsimp only
  obtain ⟨hreg, hrel, hnh⟩ := capture_frame_state env s p.1 b
  refine ⟨hreg, hrel, hnh, ?_, by rw [hreg]⟩
  unfold list_active_connections
  rw [hreg]
  exact List.mem_map.mpr ⟨p, List.mem_of_find?_eq_some h, rfl⟩

theorem quick_capture_reuses_existing_witness :
    sQ.registry.find? (fun q => startswith q.1 (cameraTag 2)) =
      some ("camera_2_20240101000000", 5) ∧
    ((quick_capture envW sQ 2 false "ts").2.registry = sQ.registry ∧
     (quick_capture envW sQ 2 false "ts").2.released = sQ.released ∧
     (quick_capture envW sQ 2 false "ts").2.nextHandle = sQ.nextHandle ∧
     ("camera_2_20240101000000", 5).1 ∈
       list_active_connections (quick_capture envW sQ 2 false "ts").2 ∧
     lookup (quick_capture envW sQ 2 false "ts").2.registry
         ("camera_2_20240101000000", 5).1 =
       lookup sQ.registry ("camera_2_20240101000000", 5).1) :=
  ⟨by decide,
    quick_capture_reuses_existing envW sQ 2 false "ts" ("camera_2_20240101000000", 5)
      (by decide)⟩

/-- C1: when no registry key carries the `camera_<device_index>_` prefix,
`quick_capture` opens a temporary handle under the generated name and closes it before
returning, on the success path and on the failed-read path alike (the `finally`
block): afterwards the registry is back to what it was — in particular it again holds
no connection id for that device index — and the temporary handle (the one allocated
by the open) has been released.  When even the open fails, the state is returned
untouched. -/
theorem quick_capture_cold_no_leak (env : Env) (s : RegState) (d : Nat) (b : Bool)
    (ts : String) (h : hasDevKey s d = false) :
    hasDevKey (quick_capture env s d b ts).2 d = false ∧
    (env.openOk d = false → (quick_capture env s d b ts).2 = s) ∧
    (env.openOk d = true →
      (quick_capture env s d b ts).2.registry = s.registry ∧
      (quick_capture env s d b ts).2.released = s.released ++ [s.nextHandle]) := by
  have hfind : s.registry.find? (fun q => startswith q.1 (cameraTag d)) = none := by
    refine List.find?_eq_none.mpr ?_
    intro p hp hpk
    unfold hasDevKey at h
    rw [List.any_eq_false] at h
    exact h p hp hpk
  cases ho : env.openOk d with
  | false =>
    have hopen : open_camera env s d none ts =
        (Except.error (Err.deviceOpenError d), s) := by
      unfold open_camera
      dsimp only
      rw [if_neg (by rw [ho]; exact Bool.false_ne_true)]
    unfold quick_capture
    rw [hfind]
    dsimp only
    rw [hopen]
    exact ⟨h, fun _ => rfl, fun hc => absurd hc (by decide)⟩
  | true =>
    have hA : s.registry.any (fun p => p.1 == genName d ts) = false := by
      rw [List.any_eq_false]
      intro p hp hc
      have hpe : p.1 = genName d ts := eq_of_beq hc
      unfold hasDevKey at h
      rw [List.any_eq_false] at h
      refine h p hp ?_
      rw [hpe]
      exact startswith_genName d ts
    have hopen : open_camera env s d none ts =
        (Except.ok (genName d ts),
         { s with registry := s.registry ++ [(genName d ts, s.nextHandle)],
                  nextHandle := s.nextHandle + 1 }) := by
      unfold open_camera
      dsimp only
      simp only [Option.getD_none]
      rw [if_pos ho]
      unfold dictInsert
      rw [if_neg (by rw [hA]; exact Bool.false_ne_true)]
    have hlook1 :
        lookup (s.registry ++ [(genName d ts, s.nextHandle)]) (genName d ts) =
          some s.nextHandle :=
      lookup_append_absent _ _ _ hA
    obtain ⟨hcr, hcl, hcn⟩ := capture_frame_state env
      { s with registry := s.registry ++ [(genName d ts, s.nextHandle)],
               nextHandle := s.nextHandle + 1 } (genName d ts) b
    have hlook2 :
        lookup (capture_frame env
            { s with registry := s.registry ++ [(genName d ts, s.nextHandle)],
                     nextHandle := s.nextHandle + 1 } (genName d ts) b).2.registry
          (genName d ts) = some s.nextHandle := by
      rw [hcr]
      exact hlook1
    have hclose :
        close_connection (capture_frame env
            { s with registry := s.registry ++ [(genName d ts, s.nextHandle)],
                     nextHandle := s.nextHandle + 1 } (genName d ts) b).2 (genName d ts) =
          (Except.ok true,
           { (capture_frame env
                { s with registry := s.registry ++ [(genName d ts, s.nextHandle)],
                         nextHandle := s.nextHandle + 1 } (genName d ts) b).2 with
               registry := dictErase (capture_frame env
                 { s with registry := s.registry ++ [(genName d ts, s.nextHandle)],
                          nextHandle := s.nextHandle + 1 } (genName d ts) b).2.registry
                 (genName d ts),
               released := (capture_frame env
                 { s with registry := s.registry ++ [(genName d ts, s.nextHandle)],
                          nextHandle := s.nextHandle + 1 } (genName d ts) b).2.released ++
                 [s.nextHandle] }) := by
      unfold close_connection
      rw [hlook2]
    have hreg2 :
        dictErase (capture_frame env
          { s with registry := s.registry ++ [(genName d ts, s.nextHandle)],
                   nextHandle := s.nextHandle + 1 } (genName d ts) b).2.registry
          (genName d ts) = s.registry := by
      rw [hcr]
      exact dictErase_append_absent _ _ _ hA
    unfold quick_capture
    rw [hfind]
    dsimp only
    rw [hopen]
    dsimp only
    rw [hclose]
    dsimp only
    refine ⟨?_, fun hc => absurd hc (by decide), fun _ => ⟨hreg2, ?_⟩⟩
    · unfold hasDevKey
      dsimp only
      rw [hreg2]
      exact h
    · dsimp only
      rw [hcl]

theorem quick_capture_cold_no_leak_witness :
    hasDevKey sW 3 = false ∧
    (hasDevKey (quick_capture envW sW 3 false "20240101000000").2 3 = false ∧
     (envW.openOk 3 = false → (quick_capture envW sW 3 false "20240101000000").2 = sW) ∧
     (envW.openOk 3 = true →
       (quick_capture envW sW 3 false "20240101000000").2.registry = sW.registry ∧
       (quick_capture envW sW 3 false "20240101000000").2.released =
         sW.released ++ [sW.nextHandle])) :=
  ⟨by decide, quick_capture_cold_no_leak envW sW 3 false "20240101000000" (by decide)⟩

/-- A state with one outstanding handle, the failing input for the shutdown claim. -/
def sOut : RegState :=
  { registry := [("camera_0_20240101000000", 7)], nextHandle := 8, released := [],
    reads := 0 }

/-- The cleanup loop in `app_lifespan`'s `finally` block does — when it runs — empty
the registry and release each registered handle exactly once (helper fact showing the
loop body matches the teardown contract; the defect is that nothing invokes it). -/
theorem app_lifespan_cleanup_releases_each_once (s : RegState) (h0 : Nat)
    (hnd : (s.registry.map Prod.snd).Nodup) (hmem : h0 ∈ s.registry.map Prod.snd)
    (hnew : h0 ∉ s.released) :
    (app_lifespan_cleanup s).registry = [] ∧
    (app_lifespan_cleanup s).released.count h0 = 1 := by
  refine ⟨rfl, ?_⟩
  unfold app_lifespan_cleanup
  dsimp only
  rw [List.count_append, List.count_eq_zero.mpr hnew,
      List.count_eq_one_of_mem hnd hmem]

/-- C2: the claim says process-wide teardown at shutdown releases every handle still
in the registry exactly once and empties the registry.  `app_lifespan`'s `finally`
block would do exactly that, but the server is constructed as
`FastMCP("VideoCapture")` with no `lifespan` argument — the constructor call passing
`lifespan=app_lifespan` is commented out — so no teardown hook runs at shutdown: with
one outstanding handle, shutdown releases nothing and leaves the registry non-empty,
even though the unregistered cleanup would have emptied it and released the handle. -/
theorem shutdown_without_lifespan_releases_nothing :
    shutdown sOut = sOut ∧
    (shutdown sOut).registry = [("camera_0_20240101000000", 7)] ∧
    (shutdown sOut).released = [] ∧
    (app_lifespan_cleanup sOut).registry = [] ∧
    (app_lifespan_cleanup sOut).released = [7] :=
  ⟨rfl, rfl, rfl, rfl, rfl⟩

end VCap
